import Mathlib

/-!
Verification of the Aneurysm_Workflow_FSI repository glue code.

Shallow embedding of:
* `src/fsipy/automatedPostprocessing/postprocessing_mesh/separate_domain.py`
  (domain separation and topology renumbering),
* `postprocessing_h5py/create_spectrogram_from_components.py`
  (component-averaged spectrograms),
* `src/fsipy/simulations/avf.py`
  (boundary-condition expressions and boundary re-marking),
* `src/fsipy/automatedPreprocessing/automated_preprocessing.py`
  (staged mesh-generation pipeline with file checkpointing, retry logic and
  final cleanup).
-/

/- ------------------------------------------------------------------------ -/
/- separate_domain.py, lines 51-80.                                          -/
/- ------------------------------------------------------------------------ -/

/-- One pass of `np.where(topology == old, new, topology)` over a 2-D
topology array (`separate_domain.py`, line 67). -/
def whereReplace (old new : Nat) (cells : List (List Nat)) : List (List Nat) :=
  cells.map (List.map fun v => if v = old then new else v)

/-- The sequential renumbering loop of `separate_domain` (lines 66-68):
`for node_id in range(len(ids)): topology = np.where(topology == ids[node_id], node_id, topology)`.
The first argument is the running value of `node_id`. -/
def fixTopology : Nat → List Nat → List (List Nat) → List (List Nat)
  | _, [], cells => cells
  | k, i0 :: rest, cells => fixTopology (k + 1) rest (whereReplace i0 k cells)

/-- `np.unique` of the flattened topology: the sorted list of distinct node
ids (`separate_domain.py`, line 61). -/
def npUnique (xs : List Nat) : List Nat :=
  xs.toFinset.sort (· ≤ ·)

/-- `domain_topology[(domains_values == domain_id).nonzero(), :]`
(`separate_domain.py`, lines 59-60): the cells whose domain marker equals
`domId`, in their original order. -/
def selectedCells (domainsValues : List Nat) (domainTopology : List (List Nat))
    (domId : Nat) : List (List Nat) :=
  ((domainsValues.zip domainTopology).filter fun p => p.1 == domId).map Prod.snd

/-- `domain_of_interest_ids = np.unique(domain_of_interest_topology)`
(line 61). -/
def usedNodeIds (domainsValues : List Nat) (domainTopology : List (List Nat))
    (domId : Nat) : List Nat :=
  npUnique (selectedCells domainsValues domainTopology domId).flatten

/-- The renumbered topology written for one domain (lines 59-68). -/
def separateDomainTopology (domainsValues : List Nat)
    (domainTopology : List (List Nat)) (domId : Nat) : List (List Nat) :=
  fixTopology 0 (usedNodeIds domainsValues domainTopology domId)
    (selectedCells domainsValues domainTopology domId)

/-- `domain_of_interest_coordinates = domain_coordinates[domain_of_interest_ids, :]`
(line 62): row `i` of the new coordinate array is the original coordinate row
of the `i`-th smallest used node id.  Coordinate rows are kept opaque. -/
def separateDomainCoordinates {α : Type} (domainsValues : List Nat)
    (domainTopology : List (List Nat)) (coords : Nat → α) (domId : Nat) : List α :=
  (usedNodeIds domainsValues domainTopology domId).map coords

/- ------------------------------------------------------------------------ -/
/- create_spectrogram_from_components.py, lines 57-66.                       -/
/- ------------------------------------------------------------------------ -/

/-- Three-way `zipWith`, used to model elementwise numpy arithmetic on
three equal-shape arrays. -/
def zipWith3 {α β γ δ : Type} (f : α → β → γ → δ) : List α → List β → List γ → List δ
  | a :: as, b :: bs, c :: cs => f a b c :: zipWith3 f as bs cs
  | _, _, _ => []

/-- `Pxx = (csv_x_data[:,1:] + csv_y_data[:,1:] + csv_z_data[:,1:])/3`
(`create_spectrogram_from_components.py`, line 66).  Matrices are lists of
rows of rationals. -/
def compositePxx (x y z : List (List ℚ)) : List (List ℚ) :=
  zipWith3
    (fun rx ry rz => zipWith3 (fun a b c => (a + b + c) / 3) (rx.drop 1) (ry.drop 1) (rz.drop 1))
    x y z

/-- `freqs = csv_x_data[:,0]` (line 63): the first column of the
x-component data. -/
def spectrogramFreqs (x : List (List ℚ)) : List ℚ :=
  x.map fun r => r.getD 0 0

/- ------------------------------------------------------------------------ -/
/- avf.py: boundary-condition expressions (lines 124-244).                   -/
/- ------------------------------------------------------------------------ -/

/-- Velocity inlet 1 (PA) parabolic profile, `avf.py` lines 124-141.  The
fields mirror the attributes set in `__init__`; `A` is the inlet area and `r`
the equivalent radius computed from it. -/
structure VelIn1Para where
  t : ℝ
  dt : ℝ
  t_ramp : ℝ
  interp_PA : List ℝ
  number : ℕ
  n : Fin 3 → ℝ
  c : Fin 3 → ℝ
  A : ℝ
  r : ℝ

/-- `VelIn1Para.__init__` (lines 125-141): `number = int(t/dt)` and
`r = sqrt(A/pi)`; the area `A` and barycenter `c` are oracles for the
FEniCS `assemble` integrals. -/
noncomputable def VelIn1Para.init (t dt vel_t_ramp : ℝ) (n c : Fin 3 → ℝ) (A : ℝ)
    (interp_PA : List ℝ) : VelIn1Para :=
  ⟨t, dt, vel_t_ramp, interp_PA, (⌊t / dt⌋).toNat, n, c, A, Real.sqrt (A / Real.pi)⟩

/-- `VelIn1Para.update` (lines 144-147). -/
noncomputable def VelIn1Para.update (s : VelIn1Para) (t : ℝ) : VelIn1Para :=
  if s.number + 1 < s.interp_PA.length then
    { s with t := t, number := (⌊t / s.dt⌋).toNat }
  else
    { s with t := t }

open scoped Classical in
/-- `VelIn1Para.eval` (lines 150-164). -/
noncomputable def VelIn1Para.eval (s : VelIn1Para) (x : Fin 3 → ℝ) : Fin 3 → ℝ :=
  let r2 := (x 0 - s.c 0) ^ 2 + (x 1 - s.c 1) ^ 2 + (x 2 - s.c 2) ^ 2
  let fact_r := 1 - r2 / s.r ^ 2
  if s.t < s.t_ramp ∧ 0 < s.t_ramp then
    let fact := s.interp_PA.getD s.number 0 * (-0.5 * Real.cos (Real.pi / s.t_ramp * s.t) + 0.5)
    fun i => -s.n i * fact_r * fact
  else
    fun i => -s.n i * s.interp_PA.getD s.number 0 * fact_r

/-- Velocity inlet 2 (DA) parabolic profile, `avf.py` lines 172-213. -/
structure VelIn2Para where
  t : ℝ
  dt : ℝ
  t_ramp : ℝ
  interp_DA : List ℝ
  number : ℕ
  n : Fin 3 → ℝ
  c : Fin 3 → ℝ
  A : ℝ
  r : ℝ

/-- `VelIn2Para.__init__` (lines 173-189). -/
noncomputable def VelIn2Para.init (t dt vel_t_ramp : ℝ) (n c : Fin 3 → ℝ) (A : ℝ)
    (interp_DA : List ℝ) : VelIn2Para :=
  ⟨t, dt, vel_t_ramp, interp_DA, (⌊t / dt⌋).toNat, n, c, A, Real.sqrt (A / Real.pi)⟩

/-- `VelIn2Para.update` (lines 191-194). -/
noncomputable def VelIn2Para.update (s : VelIn2Para) (t : ℝ) : VelIn2Para :=
  if s.number + 1 < s.interp_DA.length then
    { s with t := t, number := (⌊t / s.dt⌋).toNat }
  else
    { s with t := t }

open scoped Classical in
/-- `VelIn2Para.eval` (lines 196-210). -/
noncomputable def VelIn2Para.eval (s : VelIn2Para) (x : Fin 3 → ℝ) : Fin 3 → ℝ :=
  let r2 := (x 0 - s.c 0) ^ 2 + (x 1 - s.c 1) ^ 2 + (x 2 - s.c 2) ^ 2
  let fact_r := 1 - r2 / s.r ^ 2
  if s.t < s.t_ramp ∧ 0 < s.t_ramp then
    let fact := s.interp_DA.getD s.number 0 * (-0.5 * Real.cos (Real.pi / s.t_ramp * s.t) + 0.5)
    fun i => -s.n i * fact_r * fact
  else
    fun i => -s.n i * s.interp_DA.getD s.number 0 * fact_r

/-- Pressure profile `InnerP`, `avf.py` lines 217-244. -/
structure InnerP where
  t : ℝ
  dt : ℝ
  interp_P : List ℝ
  number : ℕ
  p_t_ramp_start : ℝ
  p_t_ramp_end : ℝ

/-- `InnerP.update` (lines 228-231). -/
noncomputable def InnerP.update (s : InnerP) (t : ℝ) : InnerP :=
  if s.number + 1 < s.interp_P.length then
    { s with t := t, number := (⌊t / s.dt⌋).toNat }
  else
    { s with t := t }

open scoped Classical in
/-- `InnerP.eval` (lines 234-240). -/
noncomputable def InnerP.eval (s : InnerP) : ℝ :=
  if s.t < s.p_t_ramp_start then 0
  else if s.t < s.p_t_ramp_end then
    s.interp_P.getD s.number 0 *
      (-0.5 * Real.cos (Real.pi / (s.p_t_ramp_end - s.p_t_ramp_start) * (s.t - s.p_t_ramp_start))
        + 0.5)
  else s.interp_P.getD s.number 0

/-- Iterated `update` calls, as performed once per time step by `pre_solve`
(`avf.py` lines 306-311). -/
noncomputable def VelIn1Para.runUpdates (s : VelIn1Para) : List ℝ → VelIn1Para
  | [] => s
  | t :: ts => (s.update t).runUpdates ts

noncomputable def VelIn2Para.runUpdates (s : VelIn2Para) : List ℝ → VelIn2Para
  | [] => s
  | t :: ts => (s.update t).runUpdates ts

noncomputable def InnerP.runUpdates (s : InnerP) : List ℝ → InnerP
  | [] => s
  | t :: ts => (s.update t).runUpdates ts

/-- The hypothesis of claim C8: along the sequence of update calls, the new
index `int(t/dt)` never exceeds the current index by more than one step. -/
def VelIn1Para.stepsOk (s : VelIn1Para) : List ℝ → Prop
  | [] => True
  | t :: ts => (⌊t / s.dt⌋).toNat ≤ s.number + 1 ∧ (s.update t).stepsOk ts

def VelIn2Para.stepsOk (s : VelIn2Para) : List ℝ → Prop
  | [] => True
  | t :: ts => (⌊t / s.dt⌋).toNat ≤ s.number + 1 ∧ (s.update t).stepsOk ts

def InnerP.stepsOk (s : InnerP) : List ℝ → Prop
  | [] => True
  | t :: ts => (⌊t / s.dt⌋).toNat ≤ s.number + 1 ∧ (s.update t).stepsOk ts

/-- The distance from `x` to the barycenter `c`, written `r` in claim C6. -/
noncomputable def distTo (x c : Fin 3 → ℝ) : ℝ :=
  Real.sqrt ((x 0 - c 0) ^ 2 + (x 1 - c 1) ^ 2 + (x 2 - c 2) ^ 2)

open scoped Classical in
/-- The ramp factor `s(t)` exactly as worded in claim C6 (spec side of the
refinement): `-0.5*cos(pi*t/vel_t_ramp) + 0.5` when `0 <= t < vel_t_ramp`
with `vel_t_ramp > 0`, and `1` otherwise. -/
noncomputable def specRampS (t tRamp : ℝ) : ℝ :=
  if 0 ≤ t ∧ t < tRamp ∧ 0 < tRamp then -0.5 * Real.cos (Real.pi * t / tRamp) + 0.5 else 1

/- ------------------------------------------------------------------------ -/
/- avf.py: get_mesh_domain_and_boundaries (lines 77-120).                    -/
/- ------------------------------------------------------------------------ -/

/-- Sphere centre x coordinate hard-coded at line 88. -/
noncomputable def sphX : ℝ := 0.33642

/-- Sphere centre y coordinate hard-coded at line 89. -/
noncomputable def sphY : ℝ := 0.0873934

/-- Sphere centre z coordinate hard-coded at line 90. -/
noncomputable def sphZ : ℝ := 0.0369964

/-- Sphere radius hard-coded at line 91. -/
noncomputable def sphRad : ℝ := 0.02

/-- `dist_sph_center` computed from a facet midpoint (lines 99, 104, 109, 114). -/
noncomputable def distSphCenter (mid : ℝ × ℝ × ℝ) : ℝ :=
  Real.sqrt ((mid.1 - sphX) ^ 2 + (mid.2.1 - sphY) ^ 2 + (mid.2.2 - sphZ) ^ 2)

open scoped Classical in
/-- Body of the facet loop of `get_mesh_domain_and_boundaries`
(lines 95-117): four successive `if` statements, all comparing the marker
value `idx_facet` read before any write; a later write overwrites an
earlier one. -/
noncomputable def reassignFacetMarker (fsi rigid outer : ℕ × ℕ)
    (marker : ℕ) (mid : ℝ × ℝ × ℝ) : ℕ :=
  let d := distSphCenter mid
  let b1 := if marker = fsi.1 ∧ sphRad < d then rigid.1 else marker
  let b2 := if marker = fsi.2 ∧ sphRad < d then rigid.2 else b1
  let b3 := if marker = outer.1 ∧ sphRad < d then rigid.1 else b2
  let b4 := if marker = outer.2 ∧ sphRad < d then rigid.2 else b3
  b4

/-- `get_mesh_domain_and_boundaries` (lines 77-120), with the mesh kept
opaque: only the facet boundary markers are rewritten; the mesh and the
domain markers are returned as read. -/
noncomputable def getMeshDomainAndBoundaries {μ : Type} (mesh : μ) (domains : List ℕ)
    (facetMidpoints : List (ℝ × ℝ × ℝ)) (boundaries : List ℕ)
    (fsi rigid outer : ℕ × ℕ) : μ × List ℕ × List ℕ :=
  (mesh, domains,
    List.zipWith (reassignFacetMarker fsi rigid outer) boundaries facetMidpoints)

/- ------------------------------------------------------------------------ -/
/- automated_preprocessing.py: naming conventions and file removal.          -/
/- ------------------------------------------------------------------------ -/

/-- `file_name_centerlines` (`automated_preprocessing.py`, line 84). -/
def fnCenterlines (b : String) : String := b ++ "_centerlines.vtp"

/-- `file_name_refine_region_centerlines` (line 85). -/
def fnRefineRegionCenterlines (b : String) : String := b ++ "_refine_region_centerline.vtp"

/-- `file_name_region_centerlines` (line 86); the removal lists hold the
unformatted template string. -/
def fnRegionCenterlines (b : String) : String := b ++ "_sac_centerline_\x7b\x7d.vtp"

/-- `file_name_distance_to_sphere_diam` (line 87). -/
def fnDistToSphereDiam (b : String) : String := b ++ "_distance_to_sphere_diam.vtp"

/-- `file_name_distance_to_sphere_const` (line 88). -/
def fnDistToSphereConst (b : String) : String := b ++ "_distance_to_sphere_const.vtp"

/-- `file_name_distance_to_sphere_curv` (line 89). -/
def fnDistToSphereCurv (b : String) : String := b ++ "_distance_to_sphere_curv.vtp"

/-- `file_name_distance_to_sphere_spheres` (line 90). -/
def fnDistToSphereSpheres (b : String) : String := b ++ "_distance_to_sphere_spheres.vtp"

/-- `file_name_distance_to_sphere_solid_thickness` (line 91). -/
def fnDistToSphereSolidThickness (b : String) : String :=
  b ++ "_distance_to_sphere_solid_thickness.vtp"

/-- `file_name_parameters` (line 92). -/
def fnParameters (b : String) : String := b ++ "_info.json"

/-- `file_name_probe_points` (line 93). -/
def fnProbePoints (b : String) : String := b ++ "_probe_point.json"

/-- `file_name_voronoi` (line 94). -/
def fnVoronoi (b : String) : String := b ++ "_voronoi.vtp"

/-- `file_name_voronoi_smooth` (line 95). -/
def fnVoronoiSmooth (b : String) : String := b ++ "_voronoi_smooth.vtp"

/-- `file_name_voronoi_surface` (line 96). -/
def fnVoronoiSurface (b : String) : String := b ++ "_voronoi_surface.vtp"

/-- `file_name_surface_smooth` (line 97). -/
def fnSurfaceSmooth (b : String) : String := b ++ "_smooth.vtp"

/-- `file_name_model_flow_ext` (line 98). -/
def fnModelFlowExt (b : String) : String := b ++ "_flowext.vtp"

/-- `file_name_clipped_model` (line 99). -/
def fnClippedModel (b : String) : String := b ++ "_clippedmodel.vtp"

/-- `file_name_flow_centerlines` (line 100). -/
def fnFlowCenterlines (b : String) : String := b ++ "_flow_cl.vtp"

/-- `file_name_surface_name` (line 101), the remeshed surface. -/
def fnSurfaceName (b : String) : String := b ++ "_remeshed_surface.vtp"

/-- `file_name_xml_mesh` (line 102). -/
def fnXmlMesh (b : String) : String := b ++ ".xml"

/-- `file_name_vtu_mesh` (line 103). -/
def fnVtuMesh (b : String) : String := b ++ ".vtu"

/-- `file_name_hdf5_mesh` (line 104). -/
def fnHdf5Mesh (b : String) : String := b ++ ".h5"

/-- `file_name_xdmf_mesh` (line 105). -/
def fnXdmfMesh (b : String) : String := b ++ ".xdmf"

/-- `file_name_edge_length_xdmf` (line 106). -/
def fnEdgeLengthXdmf (b : String) : String := b ++ "_edge_length.xdmf"

/-- `files_to_remove` of the `remove_all` branch (lines 111-119). -/
def removeAllList (b : String) : List String :=
  [fnCenterlines b, fnRefineRegionCenterlines b, fnRegionCenterlines b,
   fnDistToSphereDiam b, fnDistToSphereConst b, fnDistToSphereCurv b,
   fnDistToSphereSpheres b, fnDistToSphereSolidThickness b,
   fnParameters b, fnProbePoints b,
   fnVoronoi b, fnVoronoiSmooth b, fnVoronoiSurface b, fnSurfaceSmooth b,
   fnModelFlowExt b, fnClippedModel b, fnFlowCenterlines b, fnSurfaceName b,
   fnXmlMesh b, fnVtuMesh b, fnHdf5Mesh b, fnXdmfMesh b]

/-- `files_to_remove` of the final cleanup (lines 533-538). -/
def finalCleanupList (b : String) : List String :=
  [fnCenterlines b, fnRefineRegionCenterlines b, fnRegionCenterlines b,
   fnDistToSphereDiam b, fnDistToSphereConst b, fnDistToSphereCurv b,
   fnVoronoi b, fnVoronoiSmooth b, fnVoronoiSurface b, fnSurfaceSmooth b,
   fnModelFlowExt b, fnClippedModel b, fnFlowCenterlines b, fnSurfaceName b]

/-- One iteration of the removal loop (lines 539-541 / 120-122):
`if path.exists(file): remove(file)`.  The file system is a list of
existing paths. -/
def removeIfExists (fs : List String) (f : String) : List String :=
  if f ∈ fs then fs.erase f else fs

/-- The whole removal loop over a list of files. -/
def removeFiles (fs : List String) (files : List String) : List String :=
  files.foldl removeIfExists fs

/- ------------------------------------------------------------------------ -/
/- automated_preprocessing.py: mesh-generation retry logic (lines 431-467).  -/
/- ------------------------------------------------------------------------ -/

/-- A VTK mesh abstracted to its point count, which is all the assertions
at lines 466-467 inspect. -/
structure VtkMesh where
  numberOfPoints : ℕ
deriving DecidableEq

/-- The retry loop `for i in range(mesh_generation_retries + 1)`
(lines 446-452).  `gen surf k` is the outcome of the `k`-th
`try_generate_mesh(surf, ...)` call: `none` models a `RuntimeError` caught
at lines 441-442, `some` a generated (mesh, remeshed surface) pair.
Returns the first success (if any) and the number of calls made. -/
def meshAttemptLoop {σ : Type} (gen : σ → ℕ → Option (VtkMesh × VtkMesh)) (dts : σ) :
    ℕ → ℕ → Option (VtkMesh × VtkMesh) × ℕ
  | _, 0 => (none, 0)
  | start, fuel + 1 =>
    match gen dts start with
    | some ms => (some ms, 1)
    | none =>
      let r := meshAttemptLoop gen dts (start + 1) fuel
      (r.1, r.2 + 1)

/-- Result of the mesh-generation block: a usable mesh, a failed Python
`assert`, or `sys.exit(-1)`. -/
inductive MeshOutcome
  | ok (mesh remeshedSurface : VtkMesh)
  | assertionError
  | exitMinusOne
deriving DecidableEq

/-- The two assertions after mesh generation (lines 466-467):
`assert mesh.GetNumberOfPoints() > 0` then
`assert remeshed_surface.GetNumberOfPoints() > 0`. -/
def runMeshAsserts (m r : VtkMesh) : MeshOutcome :=
  if 0 < m.numberOfPoints then
    if 0 < r.numberOfPoints then .ok m r else .assertionError
  else .assertionError

/-- The mesh-generation block of `run_pre_processing` (lines 431-467):
up to `retries + 1` calls to `generate_mesh` on `dts`; if all fail, exactly
one further call on `mesh_alternative dts`; if that also fails,
`sys.exit(-1)`.  Returns the outcome and the total number of
`generate_mesh` calls. -/
def computeMesh {σ : Type} (retries : ℕ) (dts : σ)
    (gen : σ → ℕ → Option (VtkMesh × VtkMesh)) (meshAlternative : σ → σ) :
    MeshOutcome × ℕ :=
  let r := meshAttemptLoop gen dts 0 (retries + 1)
  match r.1 with
  | some (m, rs) => (runMeshAsserts m rs, r.2)
  | none =>
    match gen (meshAlternative dts) 0 with
    | some (m, rs) => (runMeshAsserts m rs, r.2 + 1)
    | none => (.exitMinusOne, r.2 + 1)

/- ------------------------------------------------------------------------ -/
/- automated_preprocessing.py: staged pipeline (lines 124-541).              -/
/- ------------------------------------------------------------------------ -/

/-- `--smoothing-method` choices (line 580). -/
inductive SmoothingMethod
  | voronoi | laplace | taubin | noSmooth
deriving DecidableEq

/-- `--meshing-method` choices (line 607). -/
inductive MeshingMethod
  | constant | curvature | diameter | distancetospheres
deriving DecidableEq

/-- How a pipeline stage produced its result: freshly computed, read from
its checkpoint file, or passed through unchanged because the stage is
disabled by configuration. -/
inductive StageMode
  | computed | readCheckpoint | passthrough
deriving DecidableEq

/-- The stages of `run_pre_processing`, in source order. -/
inductive StageTag
  | clipping | surfaceCleaning | capping | centerlineExtraction | smoothing
  | flowExtension | flowCenterlines | distanceField | solidThicknessStage
  | meshGeneration | boundaryIdAssignment
deriving DecidableEq

/-- One entry of the pipeline execution trace. -/
structure StageEvent where
  tag : StageTag
  mode : StageMode
deriving DecidableEq

/-- The configuration and environment of one `run_pre_processing` run:
the command-line options that steer control flow, together with oracles
for the data-dependent branches (`check_if_closed_surface`, the NaN check,
the Voronoi clipping check, and the nondeterministic `generate_mesh`
outcomes). -/
structure PreConfig where
  isCapped : Bool
  checkSurfaceDone : Bool
  foundNaN : Bool
  smoothingMethod : SmoothingMethod
  voronoiClippingOk : Bool
  addFlowExtensions : Bool
  meshingMethod : MeshingMethod
  meshingParamsCount : ℕ
  solidThicknessVariable : Bool
  solidThicknessParamsCount : ℕ
  solidThicknessFirstPositive : Bool
  removeAll : Bool
  meshRetries : ℕ
  genMesh : ℕ → Option (VtkMesh × VtkMesh)
  genMeshAlt : ℕ → Option (VtkMesh × VtkMesh)

/-- Clipping of a capped input model (lines 134-146): checkpointed on
`file_name_clipped_model`; skipped entirely for open models. -/
def stageClipping (cfg : PreConfig) (b : String) (fs : List String) :
    StageMode × List String :=
  if cfg.isCapped then
    if fnClippedModel b ∈ fs then (.readCheckpoint, fs)
    else (.computed, fnClippedModel b :: fs)
  else (.passthrough, fs)

/-- Surface cleaning (lines 148-165): runs only when `check_surface` is not
yet recorded in the parameter file; raises `RuntimeError` when NaN
triangles remain. -/
def stageSurfaceCleaning (cfg : PreConfig) (fs : List String) :
    Option (StageMode × List String) :=
  if cfg.checkSurfaceDone then some (.passthrough, fs)
  else if cfg.foundNaN then none
  else some (.computed, fs)

/-- Capping of the surface, `vmtk_cap_polydata` (line 168). -/
def stageCapping (fs : List String) : StageMode × List String :=
  (.computed, fs)

/-- Centerline extraction (lines 170-185): `compute_centerlines` writes
`file_name_centerlines`. -/
def stageCenterlines (b : String) (fs : List String) : StageMode × List String :=
  (.computed, fnCenterlines b :: fs)

/-- Surface smoothing (lines 236-298), checkpointed on
`file_name_surface_smooth`.  The Voronoi branch has inner checkpoints for
the Voronoi diagram files and exits with `-1` (after writing the unsmoothed
surface) when automatic clipping added outlets (lines 263-273). -/
def stageSmoothing (cfg : PreConfig) (b : String) (fs : List String) :
    Option (StageMode × List String) :=
  match cfg.smoothingMethod with
  | .noSmooth => some (.passthrough, fs)
  | .voronoi =>
    if fnSurfaceSmooth b ∈ fs then some (.readCheckpoint, fs)
    else
      let fs1 := if fnVoronoi b ∈ fs then fs else fnVoronoi b :: fs
      let fs2 := if fnVoronoiSmooth b ∈ fs1 then fs1 else fnVoronoiSmooth b :: fs1
      if cfg.voronoiClippingOk then some (.computed, fnSurfaceSmooth b :: fs2)
      else none
  | .laplace | .taubin =>
    if fnSurfaceSmooth b ∈ fs then some (.readCheckpoint, fs)
    else some (.computed, fnSurfaceSmooth b :: fs)

/-- Flow extensions (lines 300-326), checkpointed on
`file_name_model_flow_ext`; a passthrough when disabled. -/
def stageFlowExtension (cfg : PreConfig) (b : String) (fs : List String) :
    StageMode × List String :=
  if cfg.addFlowExtensions then
    if fnModelFlowExt b ∈ fs then (.readCheckpoint, fs)
    else (.computed, fnModelFlowExt b :: fs)
  else (.passthrough, fs)

/-- Centerlines with flow extensions (lines 331-349), checkpointed on
`file_name_flow_centerlines`; a passthrough when flow extensions are
disabled. -/
def stageFlowCenterlines (cfg : PreConfig) (b : String) (fs : List String) :
    StageMode × List String :=
  if cfg.addFlowExtensions then
    if fnFlowCenterlines b ∈ fs then (.readCheckpoint, fs)
    else (.computed, fnFlowCenterlines b :: fs)
  else (.passthrough, fs)

/-- The checkpoint file of the distance-to-sphere stage for each meshing
method (lines 364-397). -/
def distanceFieldFile (m : MeshingMethod) (b : String) : String :=
  match m with
  | .constant => fnDistToSphereConst b
  | .curvature => fnDistToSphereCurv b
  | .diameter => fnDistToSphereDiam b
  | .distancetospheres => fnDistToSphereSpheres b

/-- Distance-to-sphere computation (lines 362-397), checkpointed on the
method-specific file; method `distancetospheres` exits with `-1` unless
exactly four meshing parameters are given (lines 385-395). -/
def stageDistanceField (cfg : PreConfig) (b : String) (fs : List String) :
    Option (StageMode × List String) :=
  if distanceFieldFile cfg.meshingMethod b ∈ fs then some (.readCheckpoint, fs)
  else
    match cfg.meshingMethod with
    | .distancetospheres =>
      if cfg.meshingParamsCount = 4 then
        some (.computed, distanceFieldFile cfg.meshingMethod b :: fs)
      else none
    | _ => some (.computed, distanceFieldFile cfg.meshingMethod b :: fs)

/-- Solid thickness handling (lines 399-428): variable thickness is
checkpointed on `file_name_distance_to_sphere_solid_thickness` and exits
with `-1` on a bad parameter count; constant thickness exits with `-1`
unless a single positive parameter is given. -/
def stageSolidThickness (cfg : PreConfig) (b : String) (fs : List String) :
    Option (StageMode × List String) :=
  if cfg.solidThicknessVariable then
    if fnDistToSphereSolidThickness b ∈ fs then some (.readCheckpoint, fs)
    else if cfg.solidThicknessParamsCount = 4 ∨ cfg.solidThicknessParamsCount = 0 then
      some (.computed, fnDistToSphereSolidThickness b :: fs)
    else none
  else
    if cfg.solidThicknessParamsCount ≠ 1 ∨ ¬ cfg.solidThicknessFirstPositive then none
    else some (.passthrough, fs)

/-- Volumetric mesh generation (lines 430-489), checkpointed on
`file_name_vtu_mesh`.  On computation the retry-with-fallback block
`computeMesh` runs; the Boolean surface stands for "alternative surface
produced by `mesh_alternative`".  On success `write_mesh` stores the
remeshed surface and the mesh files (the mesh-format-specific companions
are elided). -/
def stageMeshGeneration (cfg : PreConfig) (b : String) (fs : List String) :
    Option (StageMode × List String) :=
  if fnVtuMesh b ∈ fs then some (.readCheckpoint, fs)
  else
    match (computeMesh cfg.meshRetries false
        (fun alt k => if alt then cfg.genMeshAlt k else cfg.genMesh k)
        (fun _ => true)).1 with
    | .ok _ _ => some (.computed, fnVtuMesh b :: fnXmlMesh b :: fnSurfaceName b :: fs)
    | .assertionError => none
    | .exitMinusOne => none

/-- Probe-point setup and boundary-ID assignment (lines 510-519):
`setup_model_network` writes the probe-point file and `find_boundaries`
assigns the boundary ids. -/
def stageBoundaryIds (b : String) (fs : List String) : StageMode × List String :=
  (.computed, fnProbePoints b :: fs)

/-- `run_pre_processing` (lines 27-541) as a staged pipeline over a file
system (list of existing paths): optional `remove_all` cleanup, the eleven
stages in source order, and the final cleanup of intermediate files.
Returns `none` when the run aborts (a raised error or `sys.exit(-1)`),
otherwise the stage trace and the final file system. -/
def runPre (cfg : PreConfig) (b : String) (fs0 : List String) :
    Option (List StageEvent × List String) :=
  let fsA := if cfg.removeAll then removeFiles fs0 (removeAllList b) else fs0
  let s1 := stageClipping cfg b fsA
  match stageSurfaceCleaning cfg s1.2 with
  | none => none
  | some s2 =>
    let s3 := stageCapping s2.2
    let s4 := stageCenterlines b s3.2
    match stageSmoothing cfg b s4.2 with
    | none => none
    | some s5 =>
      let s6 := stageFlowExtension cfg b s5.2
      let s7 := stageFlowCenterlines cfg b s6.2
      match stageDistanceField cfg b s7.2 with
      | none => none
      | some s8 =>
        match stageSolidThickness cfg b s8.2 with
        | none => none
        | some s9 =>
          match stageMeshGeneration cfg b s9.2 with
          | none => none
          | some s10 =>
            let s11 := stageBoundaryIds b s10.2
            let fsZ := removeFiles s11.2 (finalCleanupList b)
            some ([⟨.clipping, s1.1⟩, ⟨.surfaceCleaning, s2.1⟩, ⟨.capping, s3.1⟩,
                   ⟨.centerlineExtraction, s4.1⟩, ⟨.smoothing, s5.1⟩,
                   ⟨.flowExtension, s6.1⟩, ⟨.flowCenterlines, s7.1⟩,
                   ⟨.distanceField, s8.1⟩, ⟨.solidThicknessStage, s9.1⟩,
                   ⟨.meshGeneration, s10.1⟩, ⟨.boundaryIdAssignment, s11.1⟩], fsZ)

/-- The full stage order of `run_pre_processing`, as laid out in the
source. -/
def fullStageOrder : List StageTag :=
  [.clipping, .surfaceCleaning, .capping, .centerlineExtraction, .smoothing,
   .flowExtension, .flowCenterlines, .distanceField, .solidThicknessStage,
   .meshGeneration, .boundaryIdAssignment]

/-- The eight stages named by the specification, in the claimed order. -/
def specStageOrder : List StageTag :=
  [.surfaceCleaning, .capping, .centerlineExtraction, .smoothing,
   .flowExtension, .distanceField, .meshGeneration, .boundaryIdAssignment]

/-- The pipeline output files that claim C10 says must survive the final
cleanup. -/
def pipelineOutputs (b : String) : List String :=
  [fnVtuMesh b, fnXmlMesh b, fnHdf5Mesh b, fnXdmfMesh b, fnParameters b, fnProbePoints b]

/- ------------------------------------------------------------------------ -/
/- Helper lemmas for the renumbering loop.                                   -/
/- ------------------------------------------------------------------------ -/

/-- The renumbering loop restricted to a single row of the topology array. -/
def renumberRow : Nat → List Nat → List Nat → List Nat
  | _, [], row => row
  | k, i0 :: rest, row => renumberRow (k + 1) rest (row.map fun v => if v = i0 then k else v)

theorem fixTopology_eq_map (rest : List Nat) :
    ∀ (k : Nat) (cells : List (List Nat)),
      fixTopology k rest cells = cells.map (renumberRow k rest) := by
  induction rest with
  | nil =>
      intro k cells
      simp only [fixTopology, renumberRow]
      exact (List.map_id cells).symm
  | cons i0 rest ih =>
      intro k cells
      simp only [fixTopology, whereReplace]
      rw [ih (k + 1), List.map_map]
      rfl

theorem renumberRow_eq (rest : List Nat) :
    ∀ (k : Nat) (row : List Nat),
      List.Sorted (· < ·) rest →
      (∀ r ∈ rest, k ≤ r) →
      (∀ v ∈ row, v < k ∨ v ∈ rest) →
      renumberRow k rest row =
        row.map (fun v => if v < k then v else k + rest.indexOf v) := by
  induction rest with
  | nil =>
      intro k row _ _ helem
      simp only [renumberRow]
      have h2 : ∀ v ∈ row, (fun v => if v < k then v else k + List.indexOf v []) v
          = (fun (v : Nat) => v) v := by
        intro v hv
        rcases helem v hv with h | h
        · exact if_pos h
        · exact absurd h (List.not_mem_nil v)
      rw [List.map_congr_left h2]
      simp
  | cons i0 rest ih =>
      intro k row hsort hged helem
      have hi0k : k ≤ i0 := hged i0 (List.mem_cons_self i0 rest)
      have hlt : ∀ r ∈ rest, i0 < r := (List.sorted_cons.mp hsort).1
      simp only [renumberRow]
      rw [ih (k + 1)]
      · rw [List.map_map]
        apply List.map_congr_left
        intro v hv
        simp only [Function.comp_apply]
        by_cases hvi : v = i0
        · rw [if_pos hvi, if_pos (Nat.lt_succ_self k), hvi,
            if_neg (Nat.not_lt.mpr hi0k), List.indexOf_cons_self, Nat.add_zero]
        · rw [if_neg hvi]
          rcases helem v hv with h | h
          · rw [if_pos (Nat.lt_succ_of_lt h), if_pos h]
          · have hvrest : v ∈ rest := by
              rcases List.mem_cons.mp h with h' | h'
              · exact absurd h' hvi
              · exact h'
            have hvgt : i0 < v := hlt v hvrest
            have hnv : ¬ v < k + 1 :=
              Nat.not_lt.mpr (Nat.succ_le_of_lt (Nat.lt_of_le_of_lt hi0k hvgt))
            have hnvk : ¬ v < k :=
              Nat.not_lt.mpr (Nat.le_of_lt (Nat.lt_of_le_of_lt hi0k hvgt))
            rw [if_neg hnv, if_neg hnvk,
              List.indexOf_cons_ne rest (fun h' => hvi h'.symm)]
            omega
      · exact (List.sorted_cons.mp hsort).2
      · intro r hr
        exact Nat.succ_le_of_lt (Nat.lt_of_le_of_lt hi0k (hlt r hr))
      · intro v hv
        rcases List.mem_map.mp hv with ⟨w, hw, hweq⟩
        by_cases hwi : w = i0
        · left
          rw [← hweq, if_pos hwi]
          exact Nat.lt_succ_self k
        · rw [← hweq, if_neg hwi]
          rcases helem w hw with h | h
          · exact Or.inl (Nat.lt_succ_of_lt h)
          · rcases List.mem_cons.mp h with h' | h'
            · exact absurd h' hwi
            · exact Or.inr h'

theorem npUnique_sorted_lt (xs : List Nat) : List.Sorted (· < ·) (npUnique xs) :=
  Finset.sort_sorted_lt _

theorem mem_npUnique {v : Nat} {xs : List Nat} : v ∈ npUnique xs ↔ v ∈ xs := by
  simp [npUnique, Finset.mem_sort, List.mem_toFinset]

theorem mem_usedNodeIds {v : Nat} {vals : List Nat} {topo : List (List Nat)} {domId : Nat} :
    v ∈ usedNodeIds vals topo domId ↔ v ∈ (selectedCells vals topo domId).flatten := by
  simp [usedNodeIds, mem_npUnique]

/-- Claim C4: for each domain id, `separate_domain` selects exactly the cells
whose marker equals that id, renumbers their node ids by the order-preserving
bijection sending the `i`-th smallest used original id to `i`, keeps
coordinate row `i` equal to the original coordinates of that `i`-th smallest
id, and the sequential `np.where` loop never conflates two distinct original
node ids. -/
theorem separate_domain_renumbering {α : Type} (domainsValues : List Nat)
    (domainTopology : List (List Nat)) (coords : Nat → α) (domId : Nat) :
    (separateDomainTopology domainsValues domainTopology domId =
      (selectedCells domainsValues domainTopology domId).map
        (List.map fun v => (usedNodeIds domainsValues domainTopology domId).indexOf v))
    ∧ (∀ cell ∈ selectedCells domainsValues domainTopology domId, ∀ v ∈ cell,
        (separateDomainCoordinates domainsValues domainTopology coords domId)[
          (usedNodeIds domainsValues domainTopology domId).indexOf v]? = some (coords v))
    ∧ (∀ u ∈ (selectedCells domainsValues domainTopology domId).flatten,
       ∀ v ∈ (selectedCells domainsValues domainTopology domId).flatten,
        u ≠ v →
        (usedNodeIds domainsValues domainTopology domId).indexOf u ≠
          (usedNodeIds domainsValues domainTopology domId).indexOf v)
    ∧ (∀ c, c ∈ selectedCells domainsValues domainTopology domId ↔
        ∃ p ∈ domainsValues.zip domainTopology, p.1 = domId ∧ p.2 = c) := by
  have hmem : ∀ v ∈ (selectedCells domainsValues domainTopology domId).flatten,
      v ∈ usedNodeIds domainsValues domainTopology domId :=
    fun v hv => mem_usedNodeIds.mpr hv
  refine ⟨?_, ?_, ?_, ?_⟩
  · rw [separateDomainTopology, fixTopology_eq_map]
    apply List.map_congr_left
    intro row hrow
    have hrw := renumberRow_eq (usedNodeIds domainsValues domainTopology domId) 0 row
      (npUnique_sorted_lt _) (fun r _ => Nat.zero_le r)
      (fun v hv => Or.inr (hmem v (List.mem_flatten.mpr ⟨row, hrow, hv⟩)))
    rw [hrw]
    apply List.map_congr_left
    intro v _
    rw [if_neg (Nat.not_lt_zero v), Nat.zero_add]
  · intro cell hcell v hv
    have hvids : v ∈ usedNodeIds domainsValues domainTopology domId :=
      hmem v (List.mem_flatten.mpr ⟨cell, hcell, hv⟩)
    rw [separateDomainCoordinates, List.getElem?_map, List.getElem?_indexOf hvids]
    rfl
  · intro u hu v hv huv heq
    apply huv
    have h1 := List.getElem?_indexOf (hmem u hu)
    have h2 := List.getElem?_indexOf (hmem v hv)
    rw [heq] at h1
    exact Option.some.inj (h1.symm.trans h2)
  · intro c
    simp only [selectedCells, List.mem_map, List.mem_filter, beq_iff_eq]
    constructor
    · rintro ⟨p, ⟨hp, hpd⟩, hpc⟩
      exact ⟨p, hp, hpd, hpc⟩
    · rintro ⟨p, hp, hpd, hpc⟩
      exact ⟨p, ⟨hp, hpd⟩, hpc⟩

/-- Concrete instance of the C4 theorem: the node with original id 5 keeps its
coordinates after renumbering. -/
theorem separate_domain_renumbering_witness :
    (separateDomainCoordinates [1, 2, 1] [[5, 3], [7, 0], [3, 9]] (fun i => i * 10) 1)[
      (usedNodeIds [1, 2, 1] [[5, 3], [7, 0], [3, 9]] 1).indexOf 5]? = some 50 :=
  (separate_domain_renumbering [1, 2, 1] [[5, 3], [7, 0], [3, 9]] (fun i => i * 10) 1).2.1
    [5, 3] (by decide) 5 (by decide)

theorem zipWith3_getElem? {α β γ δ : Type} (f : α → β → γ → δ) :
    ∀ (as : List α) (bs : List β) (cs : List γ) (i : Nat) (a : α) (b : β) (c : γ),
      as[i]? = some a → bs[i]? = some b → cs[i]? = some c →
      (zipWith3 f as bs cs)[i]? = some (f a b c) := by
  intro as
  induction as with
  | nil => intro bs cs i a b c ha; simp at ha
  | cons a0 as ih =>
      intro bs cs i a b c ha hb hc
      cases bs with
      | nil => simp at hb
      | cons b0 bs =>
          cases cs with
          | nil => simp at hc
          | cons c0 cs =>
              cases i with
              | zero =>
                  simp only [List.getElem?_cons_zero, Option.some.injEq] at ha hb hc
                  simp [zipWith3, ha, hb, hc]
              | succ n =>
                  simp only [List.getElem?_cons_succ] at ha hb hc
                  simpa [zipWith3] using ih bs cs n a b c ha hb hc

/-- Claim C5: the combined spectrogram takes its frequency axis from the
first column of the x-component data, and each combined power entry is the
element-wise arithmetic mean `(x + y + z) / 3` of the three components'
entries from column 1 onward. -/
theorem create_spectrogram_composite_mean (x y z : List (List ℚ)) (i j : Nat)
    (rx ry rz : List ℚ) (hx : x[i]? = some rx) (hy : y[i]? = some ry) (hz : z[i]? = some rz)
    (a b c : ℚ) (ha : rx[j + 1]? = some a) (hb : ry[j + 1]? = some b)
    (hc : rz[j + 1]? = some c) :
    (∃ row, (compositePxx x y z)[i]? = some row ∧ row[j]? = some ((a + b + c) / 3))
    ∧ (spectrogramFreqs x)[i]? = some (rx.getD 0 0) := by
  constructor
  · refine ⟨zipWith3 (fun a b c => (a + b + c) / 3) (rx.drop 1) (ry.drop 1) (rz.drop 1),
      zipWith3_getElem? _ x y z i rx ry rz hx hy hz, ?_⟩
    apply zipWith3_getElem? _ _ _ _ j a b c
    · rw [List.getElem?_drop, Nat.add_comm]; exact ha
    · rw [List.getElem?_drop, Nat.add_comm]; exact hb
    · rw [List.getElem?_drop, Nat.add_comm]; exact hc
  · rw [spectrogramFreqs, List.getElem?_map, hx]
    rfl

/-- Concrete instance of the C5 theorem on a 1-by-3 input. -/
theorem create_spectrogram_composite_mean_witness :
    (∃ row, (compositePxx [[1, 2, 4]] [[0, 5, 7]] [[0, 2, 1]])[0]? = some row
      ∧ row[0]? = some ((2 + 5 + 2) / 3 : ℚ))
    ∧ (spectrogramFreqs [[1, 2, 4]])[0]? = some (([1, 2, 4] : List ℚ).getD 0 0) :=
  create_spectrogram_composite_mean [[1, 2, 4]] [[0, 5, 7]] [[0, 2, 1]] 0 0
    [1, 2, 4] [0, 5, 7] [0, 2, 1] rfl rfl rfl 2 5 2 rfl rfl rfl

/-- Claim C6: `VelIn1Para.eval` (and symmetrically `VelIn2Para.eval`) returns
`-n * interp[number] * (1 - r^2/R^2) * s(t)` with `r` the distance from `x`
to the inlet barycenter `c`, `R = sqrt(A/pi)` and `s` the cosine start-up
ramp; the profile vanishes where `r = R`, the parabolic factor is maximal at
the barycenter, and the profile is identically zero at `t = 0`. -/
theorem avf_parabolic_inlet_profile (t dt vel_t_ramp A : ℝ) (n c : Fin 3 → ℝ)
    (interp : List ℝ) (x : Fin 3 → ℝ) (ht : 0 ≤ t) (hA : 0 < A) :
    (∀ i, (VelIn1Para.init t dt vel_t_ramp n c A interp).eval x i =
        -n i * interp.getD (⌊t / dt⌋).toNat 0 *
          (1 - distTo x c ^ 2 / Real.sqrt (A / Real.pi) ^ 2) * specRampS t vel_t_ramp)
    ∧ (∀ i, (VelIn2Para.init t dt vel_t_ramp n c A interp).eval x i =
        -n i * interp.getD (⌊t / dt⌋).toNat 0 *
          (1 - distTo x c ^ 2 / Real.sqrt (A / Real.pi) ^ 2) * specRampS t vel_t_ramp)
    ∧ (distTo x c = Real.sqrt (A / Real.pi) →
        ∀ i, (VelIn1Para.init t dt vel_t_ramp n c A interp).eval x i = 0)
    ∧ (1 - distTo x c ^ 2 / Real.sqrt (A / Real.pi) ^ 2 ≤ 1
        ∧ 1 - distTo c c ^ 2 / Real.sqrt (A / Real.pi) ^ 2 = 1)
    ∧ (t = 0 → 0 < vel_t_ramp →
        ∀ i, (VelIn1Para.init t dt vel_t_ramp n c A interp).eval x i = 0) := by
  have h0 : (0 : ℝ) ≤ (x 0 - c 0) ^ 2 + (x 1 - c 1) ^ 2 + (x 2 - c 2) ^ 2 := by positivity
  have hd : distTo x c ^ 2 = (x 0 - c 0) ^ 2 + (x 1 - c 1) ^ 2 + (x 2 - c 2) ^ 2 :=
    Real.sq_sqrt h0
  have hR : 0 < Real.sqrt (A / Real.pi) :=
    Real.sqrt_pos.mpr (div_pos hA Real.pi_pos)
  have hmain1 : ∀ i, (VelIn1Para.init t dt vel_t_ramp n c A interp).eval x i =
      -n i * interp.getD (⌊t / dt⌋).toNat 0 *
        (1 - distTo x c ^ 2 / Real.sqrt (A / Real.pi) ^ 2) * specRampS t vel_t_ramp := by
    intro i
    simp only [VelIn1Para.eval, VelIn1Para.init, specRampS]
    by_cases hc : t < vel_t_ramp ∧ 0 < vel_t_ramp
    · rw [if_pos hc, if_pos ⟨ht, hc.1, hc.2⟩, hd, div_mul_eq_mul_div]
      ring
    · rw [if_neg hc, if_neg (fun h => hc ⟨h.2.1, h.2.2⟩), hd]
      ring
  have hmain2 : ∀ i, (VelIn2Para.init t dt vel_t_ramp n c A interp).eval x i =
      -n i * interp.getD (⌊t / dt⌋).toNat 0 *
        (1 - distTo x c ^ 2 / Real.sqrt (A / Real.pi) ^ 2) * specRampS t vel_t_ramp := by
    intro i
    simp only [VelIn2Para.eval, VelIn2Para.init, specRampS]
    by_cases hc : t < vel_t_ramp ∧ 0 < vel_t_ramp
    · rw [if_pos hc, if_pos ⟨ht, hc.1, hc.2⟩, hd, div_mul_eq_mul_div]
      ring
    · rw [if_neg hc, if_neg (fun h => hc ⟨h.2.1, h.2.2⟩), hd]
      ring
  refine ⟨hmain1, hmain2, ?_, ⟨?_, ?_⟩, ?_⟩
  · intro hr i
    rw [hmain1 i, hr, div_self (pow_ne_zero 2 (ne_of_gt hR))]
    ring
  · exact sub_le_self 1 (div_nonneg (sq_nonneg _) (sq_nonneg _))
  · have hcc : distTo c c = 0 := by
      simp [distTo]
    rw [hcc]
    norm_num
  · intro ht0 hramp i
    rw [hmain1 i, ht0]
    have hs : specRampS 0 vel_t_ramp = 0 := by
      rw [specRampS, if_pos ⟨le_refl (0 : ℝ), hramp, hramp⟩]
      norm_num [Real.cos_zero]
    rw [hs]
    ring

/-- Concrete instance of the C6 theorem: the parabolic factor is bounded by
its value at the barycenter. -/
theorem avf_parabolic_inlet_profile_witness :
    1 - distTo (fun _ => 0) (fun _ => 1) ^ 2 / Real.sqrt (Real.pi / Real.pi) ^ 2 ≤ 1 :=
  (avf_parabolic_inlet_profile 0 1 1 Real.pi (fun _ => 0) (fun _ => 1) []
    (fun _ => 0) (le_refl 0) Real.pi_pos).2.2.2.1.1

/-- Claim C7: `InnerP.eval` returns `0` before the ramp start, the cosine
ramp value between ramp start and ramp end, and the full interpolated
pressure from the ramp end on; as a function of time it is continuous and
rises from `0` at the ramp start to the full pressure at the ramp end. -/
theorem avf_pressure_ramp (dt : ℝ) (interp : List ℝ) (num : ℕ) (a b : ℝ) (hab : a < b) :
    (∀ t, t < a → InnerP.eval ⟨t, dt, interp, num, a, b⟩ = 0)
    ∧ (∀ t, a ≤ t → t < b → InnerP.eval ⟨t, dt, interp, num, a, b⟩ =
        interp.getD num 0 * (-0.5 * Real.cos (Real.pi * (t - a) / (b - a)) + 0.5))
    ∧ (∀ t, b ≤ t → InnerP.eval ⟨t, dt, interp, num, a, b⟩ = interp.getD num 0)
    ∧ InnerP.eval ⟨a, dt, interp, num, a, b⟩ = 0
    ∧ InnerP.eval ⟨b, dt, interp, num, a, b⟩ = interp.getD num 0
    ∧ Continuous (fun t => InnerP.eval ⟨t, dt, interp, num, a, b⟩) := by
  have hba : b - a ≠ 0 := sub_ne_zero.mpr (ne_of_gt hab)
  have hga : interp.getD num 0 * (-0.5 * Real.cos (Real.pi / (b - a) * (a - a)) + 0.5) = 0 := by
    norm_num [Real.cos_zero]
  have hgb : interp.getD num 0 * (-0.5 * Real.cos (Real.pi / (b - a) * (b - a)) + 0.5) =
      interp.getD num 0 := by
    rw [div_mul_cancel₀ _ hba, Real.cos_pi]
    ring
  have h1 : ∀ t, t < a → InnerP.eval ⟨t, dt, interp, num, a, b⟩ = 0 := by
    intro t h
    simp only [InnerP.eval]
    rw [if_pos h]
  have h2 : ∀ t, a ≤ t → t < b → InnerP.eval ⟨t, dt, interp, num, a, b⟩ =
      interp.getD num 0 * (-0.5 * Real.cos (Real.pi * (t - a) / (b - a)) + 0.5) := by
    intro t hta htb
    simp only [InnerP.eval]
    rw [if_neg (not_lt.mpr hta), if_pos htb, div_mul_eq_mul_div]
  have h3 : ∀ t, b ≤ t → InnerP.eval ⟨t, dt, interp, num, a, b⟩ = interp.getD num 0 := by
    intro t h
    simp only [InnerP.eval]
    rw [if_neg (not_lt.mpr (le_trans (le_of_lt hab) h)), if_neg (not_lt.mpr h)]
  have h4 : InnerP.eval ⟨a, dt, interp, num, a, b⟩ = 0 := by
    rw [h2 a (le_refl a) hab]
    rw [← div_mul_eq_mul_div]
    exact hga
  have h5 : InnerP.eval ⟨b, dt, interp, num, a, b⟩ = interp.getD num 0 :=
    h3 b (le_refl b)
  refine ⟨h1, h2, h3, h4, h5, ?_⟩
  have hinner : Continuous (fun t : ℝ => if b ≤ t then interp.getD num 0
      else interp.getD num 0 * (-0.5 * Real.cos (Real.pi / (b - a) * (t - a)) + 0.5)) := by
    apply Continuous.if_le continuous_const ?_ continuous_const continuous_id
    · intro u hu
      obtain rfl : u = b := hu.symm
      exact hgb.symm
    · fun_prop
  have houter : Continuous (fun t : ℝ => if a ≤ t then
      (if b ≤ t then interp.getD num 0
        else interp.getD num 0 * (-0.5 * Real.cos (Real.pi / (b - a) * (t - a)) + 0.5))
      else 0) := by
    apply Continuous.if_le hinner continuous_const continuous_const continuous_id
    intro u hu
    obtain rfl : u = a := hu.symm
    rw [if_neg (not_le.mpr hab)]
    exact hga
  have hfun : (fun t : ℝ => InnerP.eval ⟨t, dt, interp, num, a, b⟩) =
      fun t : ℝ => if a ≤ t then
        (if b ≤ t then interp.getD num 0
          else interp.getD num 0 * (-0.5 * Real.cos (Real.pi / (b - a) * (t - a)) + 0.5))
        else 0 := by
    funext t
    simp only [InnerP.eval]
    by_cases hta : t < a
    · rw [if_pos hta, if_neg (not_le.mpr hta)]
    · rw [if_neg hta, if_pos (not_lt.mp hta)]
      by_cases htb : t < b
      · rw [if_pos htb, if_neg (not_le.mpr htb)]
      · rw [if_neg htb, if_pos (not_lt.mp htb)]
  rw [hfun]
  exact houter

/-- Concrete instance of the C7 theorem: with ramp start `0` and ramp end
`1`, the pressure expression is continuous in time and vanishes at the ramp
start. -/
theorem avf_pressure_ramp_witness :
    InnerP.eval ⟨(0 : ℝ), 1, [], 0, 0, 1⟩ = 0
    ∧ Continuous (fun t => InnerP.eval ⟨t, 1, [], 0, 0, 1⟩) :=
  ⟨(avf_pressure_ramp 1 [] 0 0 1 zero_lt_one).2.2.2.1,
   (avf_pressure_ramp 1 [] 0 0 1 zero_lt_one).2.2.2.2.2⟩

/-- Claim C8: for each boundary-condition expression, `update(t)` changes
the stored waveform index only while `number + 1 < len(interp)`; provided
successive calls never raise `int(t/dt)` more than one step past the current
index, the index stays strictly below the waveform length for the whole
simulation. -/
theorem avf_update_index_bound :
    (∀ (s : VelIn1Para) (t : ℝ), ¬ s.number + 1 < s.interp_PA.length →
        (s.update t).number = s.number)
    ∧ (∀ (s : VelIn2Para) (t : ℝ), ¬ s.number + 1 < s.interp_DA.length →
        (s.update t).number = s.number)
    ∧ (∀ (s : InnerP) (t : ℝ), ¬ s.number + 1 < s.interp_P.length →
        (s.update t).number = s.number)
    ∧ (∀ (s : VelIn1Para) (ts : List ℝ), s.number < s.interp_PA.length → s.stepsOk ts →
        (s.runUpdates ts).number < (s.runUpdates ts).interp_PA.length)
    ∧ (∀ (s : VelIn2Para) (ts : List ℝ), s.number < s.interp_DA.length → s.stepsOk ts →
        (s.runUpdates ts).number < (s.runUpdates ts).interp_DA.length)
    ∧ (∀ (s : InnerP) (ts : List ℝ), s.number < s.interp_P.length → s.stepsOk ts →
        (s.runUpdates ts).number < (s.runUpdates ts).interp_P.length) := by
  refine ⟨?_, ?_, ?_, ?_, ?_, ?_⟩
  · intro s t h
    simp only [VelIn1Para.update, if_neg h]
  · intro s t h
    simp only [VelIn2Para.update, if_neg h]
  · intro s t h
    simp only [InnerP.update, if_neg h]
  · intro s ts
    induction ts generalizing s with
    | nil => intro h _; exact h
    | cons t ts ih =>
        intro h hok
        simp only [VelIn1Para.runUpdates]
        apply ih
        · have hlen : (s.update t).interp_PA = s.interp_PA := by
            simp only [VelIn1Para.update]
            split <;> rfl
          rw [hlen]
          simp only [VelIn1Para.update]
          split
          next h2 => exact Nat.lt_of_le_of_lt hok.1 h2
          next => exact h
        · exact hok.2
  · intro s ts
    induction ts generalizing s with
    | nil => intro h _; exact h
    | cons t ts ih =>
        intro h hok
        simp only [VelIn2Para.runUpdates]
        apply ih
        · have hlen : (s.update t).interp_DA = s.interp_DA := by
            simp only [VelIn2Para.update]
            split <;> rfl
          rw [hlen]
          simp only [VelIn2Para.update]
          split
          next h2 => exact Nat.lt_of_le_of_lt hok.1 h2
          next => exact h
        · exact hok.2
  · intro s ts
    induction ts generalizing s with
    | nil => intro h _; exact h
    | cons t ts ih =>
        intro h hok
        simp only [InnerP.runUpdates]
        apply ih
        · have hlen : (s.update t).interp_P = s.interp_P := by
            simp only [InnerP.update]
            split <;> rfl
          rw [hlen]
          simp only [InnerP.update]
          split
          next h2 => exact Nat.lt_of_le_of_lt hok.1 h2
          next => exact h
        · exact hok.2

/-- Concrete instance of the C8 theorem: a two-sample waveform with
`dt = 1` and one update call at `t = 1`, which advances the stored index by
exactly one step (`int(1/1) = 1 = number + 1`) and keeps it strictly below
the waveform length. -/
theorem avf_update_index_bound_witness :
    ((⟨0, 1, [0, 0], 0, 0, 1⟩ : InnerP).runUpdates [1]).number <
      ((⟨0, 1, [0, 0], 0, 0, 1⟩ : InnerP).runUpdates [1]).interp_P.length :=
  avf_update_index_bound.2.2.2.2.2 ⟨0, 1, [0, 0], 0, 0, 1⟩ [1] (by decide)
    ⟨by show (⌊(1 : ℝ) / 1⌋).toNat ≤ 0 + 1
        rw [div_one, Int.floor_one]
        decide,
     trivial⟩

/-- Claim C9: `get_mesh_domain_and_boundaries` reassigns to the
corresponding rigid-wall id exactly those facets whose marker is one of the
fsi or outer ids and whose midpoint lies strictly farther than `0.02` from
the hard-coded sphere centre; facets with any other marker, or with midpoint
inside the sphere, keep their marker, and the mesh and domain markers are
returned unchanged. -/
theorem avf_rigid_sphere_remarking {μ : Type} (mesh : μ) (domains : List ℕ)
    (facetMidpoints : List (ℝ × ℝ × ℝ)) (boundaries : List ℕ) (fsi rigid outer : ℕ × ℕ)
    (h12 : fsi.1 ≠ fsi.2) (h13 : fsi.1 ≠ outer.1) (h14 : fsi.1 ≠ outer.2)
    (h23 : fsi.2 ≠ outer.1) (h24 : fsi.2 ≠ outer.2) (h34 : outer.1 ≠ outer.2) :
    ((getMeshDomainAndBoundaries mesh domains facetMidpoints boundaries fsi rigid outer).1
      = mesh)
    ∧ ((getMeshDomainAndBoundaries mesh domains facetMidpoints boundaries fsi rigid outer).2.1
      = domains)
    ∧ ((getMeshDomainAndBoundaries mesh domains facetMidpoints boundaries fsi rigid outer).2.2
      = List.zipWith (reassignFacetMarker fsi rigid outer) boundaries facetMidpoints)
    ∧ (∀ (m : ℕ) (mid : ℝ × ℝ × ℝ),
        (m = fsi.1 → sphRad < distSphCenter mid →
          reassignFacetMarker fsi rigid outer m mid = rigid.1)
        ∧ (m = fsi.2 → sphRad < distSphCenter mid →
          reassignFacetMarker fsi rigid outer m mid = rigid.2)
        ∧ (m = outer.1 → sphRad < distSphCenter mid →
          reassignFacetMarker fsi rigid outer m mid = rigid.1)
        ∧ (m = outer.2 → sphRad < distSphCenter mid →
          reassignFacetMarker fsi rigid outer m mid = rigid.2)
        ∧ (m ≠ fsi.1 → m ≠ fsi.2 → m ≠ outer.1 → m ≠ outer.2 →
          reassignFacetMarker fsi rigid outer m mid = m)
        ∧ (distSphCenter mid ≤ sphRad →
          reassignFacetMarker fsi rigid outer m mid = m)) := by
  refine ⟨rfl, rfl, rfl, ?_⟩
  intro m mid
  refine ⟨?_, ?_, ?_, ?_, ?_, ?_⟩
  · intro hm hfar
    subst hm
    simp only [reassignFacetMarker]
    rw [if_neg (show ¬ (fsi.1 = outer.2 ∧ sphRad < distSphCenter mid) from fun h => h14 h.1),
      if_neg (show ¬ (fsi.1 = outer.1 ∧ sphRad < distSphCenter mid) from fun h => h13 h.1),
      if_neg (show ¬ (fsi.1 = fsi.2 ∧ sphRad < distSphCenter mid) from fun h => h12 h.1),
      if_pos (show True ∧ sphRad < distSphCenter mid from ⟨trivial, hfar⟩)]
  · intro hm hfar
    subst hm
    simp only [reassignFacetMarker]
    rw [if_neg (show ¬ (fsi.2 = outer.2 ∧ sphRad < distSphCenter mid) from fun h => h24 h.1),
      if_neg (show ¬ (fsi.2 = outer.1 ∧ sphRad < distSphCenter mid) from fun h => h23 h.1),
      if_pos (show True ∧ sphRad < distSphCenter mid from ⟨trivial, hfar⟩)]
  · intro hm hfar
    subst hm
    simp only [reassignFacetMarker]
    rw [if_neg (show ¬ (outer.1 = outer.2 ∧ sphRad < distSphCenter mid) from fun h => h34 h.1),
      if_pos (show True ∧ sphRad < distSphCenter mid from ⟨trivial, hfar⟩)]
  · intro hm hfar
    subst hm
    simp only [reassignFacetMarker]
    rw [if_pos (show True ∧ sphRad < distSphCenter mid from ⟨trivial, hfar⟩)]
  · intro hm1 hm2 hm3 hm4
    simp only [reassignFacetMarker]
    rw [if_neg (show ¬ (m = outer.2 ∧ sphRad < distSphCenter mid) from fun h => hm4 h.1),
      if_neg (show ¬ (m = outer.1 ∧ sphRad < distSphCenter mid) from fun h => hm3 h.1),
      if_neg (show ¬ (m = fsi.2 ∧ sphRad < distSphCenter mid) from fun h => hm2 h.1),
      if_neg (show ¬ (m = fsi.1 ∧ sphRad < distSphCenter mid) from fun h => hm1 h.1)]
  · intro hnear
    have hnlt : ¬ sphRad < distSphCenter mid := not_lt.mpr hnear
    simp only [reassignFacetMarker]
    rw [if_neg (show ¬ (m = outer.2 ∧ sphRad < distSphCenter mid) from fun h => hnlt h.2),
      if_neg (show ¬ (m = outer.1 ∧ sphRad < distSphCenter mid) from fun h => hnlt h.2),
      if_neg (show ¬ (m = fsi.2 ∧ sphRad < distSphCenter mid) from fun h => hnlt h.2),
      if_neg (show ¬ (m = fsi.1 ∧ sphRad < distSphCenter mid) from fun h => hnlt h.2)]

/-- Concrete instance of the C9 theorem with the boundary ids of `avf.py`:
an fsi facet far from the sphere is re-marked with the rigid-wall id. -/
theorem avf_rigid_sphere_remarking_witness :
    reassignFacetMarker (22, 1022) (11, 1011) (33, 1033) 22 (10, 0.0873934, 0.0369964) = 11 := by
  have hsq : (0.02 : ℝ) ^ 2 <
      ((10 : ℝ) - 0.33642) ^ 2 + ((0.0873934 : ℝ) - 0.0873934) ^ 2
        + ((0.0369964 : ℝ) - 0.0369964) ^ 2 := by
    norm_num
  have hfar : sphRad < distSphCenter (10, 0.0873934, 0.0369964) := by
    have h2 := (Real.lt_sqrt (by norm_num : (0 : ℝ) ≤ 0.02)).mpr hsq
    simpa [distSphCenter, sphRad, sphX, sphY, sphZ] using h2
  exact ((avf_rigid_sphere_remarking () [] [] [] (22, 1022) (11, 1011) (33, 1033)
    (by decide) (by decide) (by decide) (by decide) (by decide) (by decide)).2.2.2
    22 (10, 0.0873934, 0.0369964)).1 rfl hfar

theorem meshAttemptLoop_calls_le {σ : Type} (gen : σ → ℕ → Option (VtkMesh × VtkMesh))
    (dts : σ) : ∀ (fuel start : ℕ), (meshAttemptLoop gen dts start fuel).2 ≤ fuel := by
  intro fuel
  induction fuel with
  | zero => intro start; simp [meshAttemptLoop]
  | succ n ih =>
      intro start
      cases h : gen dts start with
      | some ms => simp [meshAttemptLoop, h]
      | none =>
          simp only [meshAttemptLoop, h]
          have := ih (start + 1)
          omega

theorem meshAttemptLoop_all_fail {σ : Type} (gen : σ → ℕ → Option (VtkMesh × VtkMesh))
    (dts : σ) : ∀ (fuel start : ℕ),
      (∀ k, start ≤ k → k < start + fuel → gen dts k = none) →
      meshAttemptLoop gen dts start fuel = (none, fuel) := by
  intro fuel
  induction fuel with
  | zero => intro start _; rfl
  | succ n ih =>
      intro start h
      have h0 : gen dts start = none := h start (le_refl start) (by omega)
      simp only [meshAttemptLoop, h0]
      rw [ih (start + 1) (fun k hk1 hk2 => h k (by omega) (by omega))]

theorem meshAttemptLoop_first_success {σ : Type} (gen : σ → ℕ → Option (VtkMesh × VtkMesh))
    (dts : σ) : ∀ (k fuel start : ℕ) (ms : VtkMesh × VtkMesh),
      gen dts (start + k) = some ms →
      (∀ j, j < k → gen dts (start + j) = none) →
      k < fuel →
      (meshAttemptLoop gen dts start fuel).1 = some ms := by
  intro k
  induction k with
  | zero =>
      intro fuel start ms hk _ hf
      cases fuel with
      | zero => omega
      | succ n =>
          rw [Nat.add_zero] at hk
          simp [meshAttemptLoop, hk]
  | succ k ih =>
      intro fuel start ms hk hj hf
      cases fuel with
      | zero => omega
      | succ n =>
          have h0 : gen dts start = none := by
            have h1 := hj 0 (Nat.succ_pos k)
            rwa [Nat.add_zero] at h1
          simp only [meshAttemptLoop, h0]
          apply ih n (start + 1) ms
          · rw [show start + 1 + k = start + (k + 1) by omega]
            exact hk
          · intro j hjk
            rw [show start + 1 + j = start + (j + 1) by omega]
            exact hj (j + 1) (by omega)
          · omega

/-- Claim C1: mesh generation makes at most `mesh_generation_retries + 1`
calls to `generate_mesh`, each caught `RuntimeError` counting as failure;
if every attempt fails, exactly one further attempt runs on the surface
transformed by `mesh_alternative`, and if that also fails the block ends in
`sys.exit(-1)` with no mesh; a successful attempt is followed by the two
positive-point-count assertions. -/
theorem mesh_generation_retry_fallback {σ : Type} (retries : ℕ) (dts : σ)
    (gen : σ → ℕ → Option (VtkMesh × VtkMesh)) (meshAlternative : σ → σ) :
    ((computeMesh retries dts gen meshAlternative).2 ≤ retries + 2)
    ∧ ((meshAttemptLoop gen dts 0 (retries + 1)).2 ≤ retries + 1)
    ∧ ((∀ k, k ≤ retries → gen dts k = none) →
        ((gen (meshAlternative dts) 0 = none →
            (computeMesh retries dts gen meshAlternative).1 = .exitMinusOne
            ∧ (computeMesh retries dts gen meshAlternative).2 = retries + 2)
         ∧ (∀ m r, gen (meshAlternative dts) 0 = some (m, r) →
            (computeMesh retries dts gen meshAlternative).1 = runMeshAsserts m r)))
    ∧ (∀ k m r, k ≤ retries → gen dts k = some (m, r) → (∀ j, j < k → gen dts j = none) →
        (computeMesh retries dts gen meshAlternative).1 = runMeshAsserts m r)
    ∧ (∀ m r, (runMeshAsserts m r = .ok m r ↔
          0 < m.numberOfPoints ∧ 0 < r.numberOfPoints)
        ∧ (¬ (0 < m.numberOfPoints ∧ 0 < r.numberOfPoints) →
          runMeshAsserts m r = .assertionError)) := by
  have hle := meshAttemptLoop_calls_le gen dts (retries + 1) 0
  refine ⟨?_, hle, ?_, ?_, ?_⟩
  · simp only [computeMesh]
    rcases hres : (meshAttemptLoop gen dts 0 (retries + 1)).1 with _ | ⟨m, rs⟩
    · rcases halt : gen (meshAlternative dts) 0 with _ | ⟨m, rs⟩
      · simp only [hres, halt]
        omega
      · simp only [hres, halt]
        omega
    · simp only [hres]
      omega
  · intro hall
    have hloop := meshAttemptLoop_all_fail gen dts (retries + 1) 0
      (fun k _ hk1 => hall k (by omega))
    constructor
    · intro halt
      constructor
      · simp [computeMesh, hloop, halt]
      · simp [computeMesh, hloop, halt]
    · intro m r halt
      simp [computeMesh, hloop, halt]
  · intro k m r hk hgen hprev
    have h1 := meshAttemptLoop_first_success gen dts k (retries + 1) 0 (m, r)
      (by rwa [Nat.zero_add]) (fun j hj => by rw [Nat.zero_add]; exact hprev j hj)
      (by omega)
    simp [computeMesh, h1]
  · intro m r
    refine ⟨?_, ?_⟩
    · simp only [runMeshAsserts]
      split_ifs with h1 h2
      · simp [h1, h2]
      · simp [h2]
      · simp [h1]
    · intro hne
      simp only [runMeshAsserts]
      split_ifs with h1 h2
      · exact absurd ⟨h1, h2⟩ hne
      · rfl
      · rfl

/-- Concrete instance of the C1 theorem: with two failing primary attempts
the single alternative attempt decides the outcome. -/
theorem mesh_generation_retry_fallback_witness :
    (computeMesh 1 0 (fun s _ => if s = 100 then some (⟨2⟩, ⟨3⟩) else none)
      (fun s => s + 100)).1 = runMeshAsserts ⟨2⟩ ⟨3⟩ :=
  ((mesh_generation_retry_fallback 1 0
      (fun s _ => if s = 100 then some (⟨2⟩, ⟨3⟩) else none)
      (fun s => s + 100)).2.2.1 (fun k _ => by decide)).2 ⟨2⟩ ⟨3⟩ (by decide)

theorem string_append_right_ne (s : String) {a b : String} (h : a ≠ b) :
    s ++ a ≠ s ++ b := by
  intro he
  apply h
  have hd : (s ++ a).data = (s ++ b).data := by rw [he]
  rw [String.data_append, String.data_append] at hd
  exact String.ext (List.append_cancel_left hd)

theorem mem_map_append_iff (b x : String) (ss : List String) :
    b ++ x ∈ ss.map (fun s => b ++ s) ↔ x ∈ ss := by
  constructor
  · intro h
    rcases List.mem_map.mp h with ⟨s, hs, hsx⟩
    by_cases hne : s = x
    · rwa [← hne]
    · exact absurd hsx (string_append_right_ne b hne)
  · intro h
    exact List.mem_map.mpr ⟨x, h, rfl⟩

theorem finalCleanupList_eq_map (b : String) :
    finalCleanupList b = ["_centerlines.vtp", "_refine_region_centerline.vtp",
      "_sac_centerline_\x7b\x7d.vtp", "_distance_to_sphere_diam.vtp",
      "_distance_to_sphere_const.vtp", "_distance_to_sphere_curv.vtp",
      "_voronoi.vtp", "_voronoi_smooth.vtp", "_voronoi_surface.vtp", "_smooth.vtp",
      "_flowext.vtp", "_clippedmodel.vtp", "_flow_cl.vtp",
      "_remeshed_surface.vtp"].map (fun s => b ++ s) := rfl

theorem pipelineOutputs_eq_map (b : String) :
    pipelineOutputs b = [".vtu", ".xml", ".h5", ".xdmf", "_info.json",
      "_probe_point.json"].map (fun s => b ++ s) := rfl

theorem removeFiles_subset (files : List String) :
    ∀ (fs : List String) (f : String), f ∈ removeFiles fs files → f ∈ fs := by
  induction files with
  | nil => intro fs f h; exact h
  | cons g gs ih =>
      intro fs f h
      have h2 : f ∈ removeIfExists fs g := ih (removeIfExists fs g) f h
      by_cases hg : g ∈ fs
      · rw [removeIfExists, if_pos hg] at h2
        exact List.mem_of_mem_erase h2
      · rwa [removeIfExists, if_neg hg] at h2

theorem removeFiles_dropped_mem (files : List String) :
    ∀ (fs : List String) (f : String), f ∈ fs → f ∉ removeFiles fs files → f ∈ files := by
  induction files with
  | nil => intro fs f hf hnot; exact absurd hf hnot
  | cons g gs ih =>
      intro fs f hf hnot
      by_cases hfg : f = g
      · exact hfg ▸ List.mem_cons_self g gs
      · apply List.mem_cons_of_mem
        apply ih (removeIfExists fs g) f
        · by_cases hg : g ∈ fs
          · rw [removeIfExists, if_pos hg]
            exact (List.mem_erase_of_ne hfg).mpr hf
          · rwa [removeIfExists, if_neg hg]
        · exact hnot
  
theorem mem_removeFiles_of_not_mem (files : List String) :
    ∀ (fs : List String) (f : String), f ∈ fs → f ∉ files → f ∈ removeFiles fs files := by
  induction files with
  | nil => intro fs f hf _; exact hf
  | cons g gs ih =>
      intro fs f hf hnf
      apply ih (removeIfExists fs g) f
      · by_cases hg : g ∈ fs
        · rw [removeIfExists, if_pos hg]
          exact (List.mem_erase_of_ne
            (fun he : f = g => hnf (by rw [he]; exact List.mem_cons_self g gs))).mpr hf
        · rwa [removeIfExists, if_neg hg]
      · exact fun h2 => hnf (List.mem_cons_of_mem g h2)

/-- Claim C10: the final cleanup removes only files from its fixed list of
intermediate pre-processing files, each only if it exists; the generated
mesh files, the parameter info file, and the probe-point file are never in
that list, so they survive every completed run. -/
theorem final_cleanup_preserves_outputs (b : String) (fs : List String) :
    (∀ f, f ∈ removeFiles fs (finalCleanupList b) → f ∈ fs)
    ∧ (∀ f, f ∈ fs → f ∉ removeFiles fs (finalCleanupList b) → f ∈ finalCleanupList b)
    ∧ (∀ o, o ∈ pipelineOutputs b → o ∉ finalCleanupList b)
    ∧ (∀ o, o ∈ pipelineOutputs b → o ∈ fs → o ∈ removeFiles fs (finalCleanupList b)) := by
  have hnotin : ∀ o ∈ pipelineOutputs b, o ∉ finalCleanupList b := by
    intro o ho
    rw [pipelineOutputs_eq_map] at ho
    rcases List.mem_map.mp ho with ⟨x, hx, rfl⟩
    rw [finalCleanupList_eq_map]
    intro hcon
    have hxin := (mem_map_append_iff b x _).mp hcon
    fin_cases hx <;> revert hxin <;> decide
  refine ⟨fun f => removeFiles_subset _ fs f,
    fun f hf hnot => removeFiles_dropped_mem _ fs f hf hnot,
    hnotin,
    fun o ho hofs => mem_removeFiles_of_not_mem _ fs o hofs (hnotin o ho)⟩

/-- Concrete instance of the C10 theorem: a generated `.vtu` mesh survives
the final cleanup. -/
theorem final_cleanup_preserves_outputs_witness :
    fnVtuMesh "case" ∈ removeFiles [fnVtuMesh "case"] (finalCleanupList "case") :=
  (final_cleanup_preserves_outputs "case" [fnVtuMesh "case"]).2.2.2 (fnVtuMesh "case")
    (by decide) (by decide)

/-- Claim C2: every completed run of `run_pre_processing` executes its
stages in the source order; in particular the eight stages named by the
specification occur in the order surface cleaning, capping, centerline
extraction, smoothing, flow extension, distance-field computation,
volumetric mesh generation, boundary-ID assignment, each stage only after
the previous one produced its result (computed, read from its checkpoint
file, or passed through). -/
theorem pipeline_stage_order (cfg : PreConfig) (b : String) (fs0 : List String)
    (tr : List StageEvent) (fsF : List String)
    (h : runPre cfg b fs0 = some (tr, fsF)) :
    tr.map StageEvent.tag = fullStageOrder
    ∧ (fullStageOrder.filter (fun t => decide (t ∈ specStageOrder))) = specStageOrder := by
  have htags : tr.map StageEvent.tag = fullStageOrder := by
    simp only [runPre] at h
    split at h
    · exact absurd h (by simp)
    · split at h
      · exact absurd h (by simp)
      · split at h
        · exact absurd h (by simp)
        · split at h
          · exact absurd h (by simp)
          · split at h
            · exact absurd h (by simp)
            · simp only [Option.some.injEq, Prod.mk.injEq] at h
              rw [← h.1]
              rfl
  exact ⟨htags, by decide⟩

/-- Concrete instance of the C2 theorem: a full run on an empty file system
with Laplace smoothing and a first-attempt mesh success. -/
theorem pipeline_stage_order_witness :
    ([⟨.clipping, .computed⟩, ⟨.surfaceCleaning, .computed⟩, ⟨.capping, .computed⟩,
      ⟨.centerlineExtraction, .computed⟩, ⟨.smoothing, .computed⟩,
      ⟨.flowExtension, .computed⟩, ⟨.flowCenterlines, .computed⟩,
      ⟨.distanceField, .computed⟩, ⟨.solidThicknessStage, .passthrough⟩,
      ⟨.meshGeneration, .computed⟩, ⟨.boundaryIdAssignment, .computed⟩] :
        List StageEvent).map StageEvent.tag = fullStageOrder
    ∧ (fullStageOrder.filter (fun t => decide (t ∈ specStageOrder))) = specStageOrder :=
  pipeline_stage_order
    ⟨true, false, false, .laplace, true, true, .diameter, 4, false, 1, true, false, 2,
      (fun _ => some (⟨3⟩, ⟨3⟩)), (fun _ => none)⟩ "c" []
    [⟨.clipping, .computed⟩, ⟨.surfaceCleaning, .computed⟩, ⟨.capping, .computed⟩,
      ⟨.centerlineExtraction, .computed⟩, ⟨.smoothing, .computed⟩,
      ⟨.flowExtension, .computed⟩, ⟨.flowCenterlines, .computed⟩,
      ⟨.distanceField, .computed⟩, ⟨.solidThicknessStage, .passthrough⟩,
      ⟨.meshGeneration, .computed⟩, ⟨.boundaryIdAssignment, .computed⟩]
    [fnProbePoints "c", fnVtuMesh "c", fnXmlMesh "c"]
    (by decide)

/-- Claim C3: for every checkpointed stage (clipped model, smoothed surface,
flow-extended surface, flow-extension centerlines, distance-to-sphere field,
volumetric mesh), if the stage's output file exists when the stage is
reached its computation is skipped and the result is read from the file;
otherwise the result is computed and the file is written.  Hence a re-run
(with `remove_all` false) recomputes no checkpointed stage whose file
survived. -/
theorem pipeline_checkpointing (cfg : PreConfig) (b : String) (fs fs2 : List String)
    (m : StageMode) :
    (cfg.isCapped = true →
      (fnClippedModel b ∈ fs → stageClipping cfg b fs = (.readCheckpoint, fs))
      ∧ (fnClippedModel b ∉ fs →
          stageClipping cfg b fs = (.computed, fnClippedModel b :: fs)))
    ∧ (cfg.smoothingMethod ≠ .noSmooth →
        stageSmoothing cfg b fs = some (m, fs2) →
        ((fnSurfaceSmooth b ∈ fs → m = .readCheckpoint ∧ fs2 = fs)
         ∧ (fnSurfaceSmooth b ∉ fs → m = .computed ∧ fnSurfaceSmooth b ∈ fs2)))
    ∧ (cfg.addFlowExtensions = true →
        (fnModelFlowExt b ∈ fs → stageFlowExtension cfg b fs = (.readCheckpoint, fs))
        ∧ (fnModelFlowExt b ∉ fs →
            stageFlowExtension cfg b fs = (.computed, fnModelFlowExt b :: fs)))
    ∧ (cfg.addFlowExtensions = true →
        (fnFlowCenterlines b ∈ fs → stageFlowCenterlines cfg b fs = (.readCheckpoint, fs))
        ∧ (fnFlowCenterlines b ∉ fs →
            stageFlowCenterlines cfg b fs = (.computed, fnFlowCenterlines b :: fs)))
    ∧ (stageDistanceField cfg b fs = some (m, fs2) →
        ((distanceFieldFile cfg.meshingMethod b ∈ fs → m = .readCheckpoint ∧ fs2 = fs)
         ∧ (distanceFieldFile cfg.meshingMethod b ∉ fs →
             m = .computed ∧ distanceFieldFile cfg.meshingMethod b ∈ fs2)))
    ∧ (stageMeshGeneration cfg b fs = some (m, fs2) →
        ((fnVtuMesh b ∈ fs → m = .readCheckpoint ∧ fs2 = fs)
         ∧ (fnVtuMesh b ∉ fs → m = .computed ∧ fnVtuMesh b ∈ fs2))) := by
  refine ⟨?_, ?_, ?_, ?_, ?_, ?_⟩
  · intro hc
    constructor
    · intro hmem
      simp [stageClipping, hc, hmem]
    · intro hmem
      simp [stageClipping, hc, hmem]
  · intro hns heq
    constructor
    · intro hmem
      cases hsm : cfg.smoothingMethod with
      | noSmooth => exact absurd hsm hns
      | voronoi =>
          simp only [stageSmoothing, hsm, if_pos hmem, Option.some.injEq,
            Prod.mk.injEq] at heq
          exact ⟨heq.1.symm, heq.2.symm⟩
      | laplace =>
          simp only [stageSmoothing, hsm, if_pos hmem, Option.some.injEq,
            Prod.mk.injEq] at heq
          exact ⟨heq.1.symm, heq.2.symm⟩
      | taubin =>
          simp only [stageSmoothing, hsm, if_pos hmem, Option.some.injEq,
            Prod.mk.injEq] at heq
          exact ⟨heq.1.symm, heq.2.symm⟩
    · intro hmem
      cases hsm : cfg.smoothingMethod with
      | noSmooth => exact absurd hsm hns
      | voronoi =>
          rw [stageSmoothing, hsm] at heq
          rw [if_neg hmem] at heq
          by_cases hvc : cfg.voronoiClippingOk
          · simp only [hvc, if_true, Option.some.injEq, Prod.mk.injEq] at heq
            refine ⟨heq.1.symm, ?_⟩
            rw [← heq.2]
            exact List.mem_cons_self _ _
          · simp only [hvc, if_false] at heq
            exact absurd heq (by simp)
      | laplace =>
          simp only [stageSmoothing, hsm, if_neg hmem, Option.some.injEq,
            Prod.mk.injEq] at heq
          refine ⟨heq.1.symm, ?_⟩
          rw [← heq.2]
          exact List.mem_cons_self _ _
      | taubin =>
          simp only [stageSmoothing, hsm, if_neg hmem, Option.some.injEq,
            Prod.mk.injEq] at heq
          refine ⟨heq.1.symm, ?_⟩
          rw [← heq.2]
          exact List.mem_cons_self _ _
  · intro hf
    constructor
    · intro hmem
      simp [stageFlowExtension, hf, hmem]
    · intro hmem
      simp [stageFlowExtension, hf, hmem]
  · intro hf
    constructor
    · intro hmem
      simp [stageFlowCenterlines, hf, hmem]
    · intro hmem
      simp [stageFlowCenterlines, hf, hmem]
  · intro heq
    constructor
    · intro hmem
      rw [stageDistanceField, if_pos hmem] at heq
      simp only [Option.some.injEq, Prod.mk.injEq] at heq
      exact ⟨heq.1.symm, heq.2.symm⟩
    · intro hmem
      rw [stageDistanceField, if_neg hmem] at heq
      cases hmm : cfg.meshingMethod with
      | distancetospheres =>
          rw [hmm] at heq
          by_cases hp : cfg.meshingParamsCount = 4
          · simp only [hp, if_true, Option.some.injEq, Prod.mk.injEq] at heq
            refine ⟨heq.1.symm, ?_⟩
            rw [← heq.2]
            exact List.mem_cons_self _ _
          · simp only [hp, if_false] at heq
            exact absurd heq (by simp)
      | constant =>
          rw [hmm] at heq
          simp only [Option.some.injEq, Prod.mk.injEq] at heq
          refine ⟨heq.1.symm, ?_⟩
          rw [← heq.2]
          exact List.mem_cons_self _ _
      | curvature =>
          rw [hmm] at heq
          simp only [Option.some.injEq, Prod.mk.injEq] at heq
          refine ⟨heq.1.symm, ?_⟩
          rw [← heq.2]
          exact List.mem_cons_self _ _
      | diameter =>
          rw [hmm] at heq
          simp only [Option.some.injEq, Prod.mk.injEq] at heq
          refine ⟨heq.1.symm, ?_⟩
          rw [← heq.2]
          exact List.mem_cons_self _ _
  · intro heq
    constructor
    · intro hmem
      rw [stageMeshGeneration, if_pos hmem] at heq
      simp only [Option.some.injEq, Prod.mk.injEq] at heq
      exact ⟨heq.1.symm, heq.2.symm⟩
    · intro hmem
      rw [stageMeshGeneration, if_neg hmem] at heq
      rcases hcm : (computeMesh cfg.meshRetries false
          (fun alt k => if alt then cfg.genMeshAlt k else cfg.genMesh k)
          (fun _ => true)).1 with ⟨mm, rr⟩ | _ | _
      · rw [hcm] at heq
        simp only [Option.some.injEq, Prod.mk.injEq] at heq
        refine ⟨heq.1.symm, ?_⟩
        rw [← heq.2]
        exact List.mem_cons_self _ _
      · rw [hcm] at heq
        exact absurd heq (by simp)
      · rw [hcm] at heq
        exact absurd heq (by simp)

/-- Concrete instance of the C3 theorem: with Laplace smoothing and no
pre-existing checkpoint file, the smoothing stage computes and writes
`file_name_surface_smooth`. -/
theorem pipeline_checkpointing_witness :
    StageMode.computed = StageMode.computed
    ∧ fnSurfaceSmooth "c" ∈ [fnSurfaceSmooth "c"] :=
  ((pipeline_checkpointing
      ⟨true, false, false, .laplace, true, true, .diameter, 4, false, 1, true, false, 2,
        (fun _ => some (⟨3⟩, ⟨3⟩)), (fun _ => none)⟩ "c" []
      [fnSurfaceSmooth "c"] .computed).2.1 (by decide) rfl).2 (by decide)
